import Mathlib

/-!
Shallow embedding of `src/app.py` (single-file Streamlit fundamentals
dashboard).  Python dicts decoded from JSON objects are modelled as
association lists from field name to `Option Val` (`none` models JSON
`null`, which Python's `json` module decodes to `None`); absent keys are
simply not listed.  The HTTP transport that `requests.get` talks to is an
explicit input (`Fetched`): a network error, or a response with a status
code and a body that is either decodable JSON or malformed.  Exceptions
raised by the Python code (`ConnectionError`, `HTTPError` from
`raise_for_status`, JSON decode errors, `KeyError` from indexing a missing
DataFrame column, `TypeError`/`ZeroDivisionError` from arithmetic on
`None`) are modelled as `Except` errors.  Numbers are `ℚ`: the arithmetic
the claims exercise (sign of a denominator, division by zero routed to
IEEE infinities/NaN by pandas, comparison with zero) is exact, and the
only floating-point effect in the source, the two-decimal display
formatting, is presentation-layer and outside the embedded core.
-/

namespace Dashboard

/-- A JSON scalar as the Python code sees it after decoding (numbers and
strings; JSON `null` is represented at the record level by `Option`). -/
inductive Val where
  | num (q : ℚ)
  | str (s : String)
deriving DecidableEq, Repr

/-- One decoded JSON object: field name to value, `none` for JSON null. -/
abbrev Record := List (String × Option Val)

/-- `d.get(k)` on a Python dict decoded from JSON: `none` when the key is
absent or its value is JSON null (Python `None` in both cases). -/
def Record.get : Record → String → Option Val
  | [], _ => none
  | (k1, v) :: rest, k => if k1 = k then v else Record.get rest k

/-- Decidable form of "every alias for this key is absent, or the value
stored under it is JSON null" — the per-field no-data condition. -/
def Record.absentOrNull : Record → String → Bool
  | [], _ => true
  | (k1, v) :: rest, k => if k1 = k then v.isNone else Record.absentOrNull rest k

/-- What `requests.get` can produce for one call: a raised network error,
or a response carrying a status code and a body (`none` = body that
`r.json()` fails to decode; `some` = the decoded JSON array). -/
inductive Fetched (α : Type) where
  | netError
  | response (status : Nat) (body : Option α)
deriving DecidableEq, Repr

/-- The exceptions the fetch helpers can raise. -/
inductive FetchErr where
  | connectionError
  | httpError (status : Nat)
  | decodeError
  | keyError (column : String)
deriving DecidableEq, Repr

/-- `requests.Response.raise_for_status` raises exactly for 4xx/5xx. -/
def raiseForStatus (st : Nat) : Bool :=
  decide (400 ≤ st ∧ st < 600)

/-- Shared body of `fetch_profile` / `fetch_ratios_ttm` /
`fetch_key_metrics` (the three are textually identical up to the URL):
`requests.get` (may raise), `raise_for_status` (raises on 4xx/5xx),
`r.json()` (raises on malformed body), then `data[0] if data else dict()`. -/
def fetchFirst (t : Fetched (List Record)) : Except FetchErr Record :=
  match t with
  | .netError => .error .connectionError
  | .response st body =>
    if raiseForStatus st then .error (.httpError st)
    else
      match body with
      | none => .error .decodeError
      | some data => .ok (data.headD [])

/-- `fetch_profile` (src/app.py lines 12-18). -/
def fetch_profile : Fetched (List Record) → Except FetchErr Record := fetchFirst

/-- `fetch_ratios_ttm` (src/app.py lines 20-26). -/
def fetch_ratios_ttm : Fetched (List Record) → Except FetchErr Record := fetchFirst

/-- `fetch_key_metrics` (src/app.py lines 28-34). -/
def fetch_key_metrics : Fetched (List Record) → Except FetchErr Record := fetchFirst

/-- `fetch_sector_pe_snapshot` (src/app.py lines 46-53): same transport
steps, but returns the decoded list unchanged (no `[0]` indexing). -/
def fetch_sector_pe_snapshot (t : Fetched (List Record)) : Except FetchErr (List Record) :=
  match t with
  | .netError => .error .connectionError
  | .response st body =>
    if raiseForStatus st then .error (.httpError st)
    else
      match body with
      | none => .error .decodeError
      | some data => .ok data

/-- One income-statement record as the claims exercise it: the `date`
field (encoded as the `yyyymmdd` ordinal `pd.to_datetime` orders by),
`revenue` and `netIncome`. -/
structure IncomeRec where
  date : Nat
  revenue : ℚ
  netIncome : ℚ
deriving DecidableEq, Repr

/-- Date order on income records, the key of `df.sort_values("date")`. -/
def dateLE (a b : IncomeRec) : Prop := a.date ≤ b.date

instance : DecidableRel dateLE := fun a b => Nat.decLe a.date b.date

instance : IsTotal IncomeRec dateLE := ⟨fun a b => Nat.le_total a.date b.date⟩

instance : IsTrans IncomeRec dateLE := ⟨fun _ _ _ => Nat.le_trans⟩

/-- `fetch_income_statement` (src/app.py lines 36-44): transport steps as
above, then `pd.DataFrame(data)`; on an empty list the DataFrame has no
columns, so `df["date"]` raises `KeyError("date")`; otherwise
`pd.to_datetime` parses the dates and `df.sort_values("date")` returns the
rows sorted ascending by date (no de-duplication of equal dates). -/
def fetch_income_statement (t : Fetched (List IncomeRec)) : Except FetchErr (List IncomeRec) :=
  match t with
  | .netError => .error .connectionError
  | .response st body =>
    if raiseForStatus st then .error (.httpError st)
    else
      match body with
      | none => .error .decodeError
      | some data =>
        if data.isEmpty then .error (.keyError "date")
        else .ok (List.insertionSort dateLE data)

/-- Transport non-success: network error, 4xx/5xx status, or a body that
fails to decode — the outcomes the spec says become `Unavailable`. -/
def nonSuccess {α : Type} : Fetched α → Bool
  | .netError => true
  | .response st body => raiseForStatus st || body.isNone

/-- Whether an `Except` computation raised. -/
def isError {ε α : Type} : Except ε α → Bool
  | .error _ => true
  | .ok _ => false

/-- The "Key Ratios (TTM)" table (src/app.py lines 85-91): one
`ratios.get(name)` per logical field, the value left as-is (`none` when
the field is absent or null — pandas renders it as NaN, never as 0). -/
def key_data (ratios : Record) : List (String × Option Val) :=
  [("PE Ratio", ratios.get "priceEarningsRatioTTM"),
   ("PEG Ratio", ratios.get "priceEarningsToGrowthRatioTTM"),
   ("ROE", ratios.get "returnOnEquityTTM"),
   ("Current Ratio", ratios.get "currentRatioTTM"),
   ("Debt/Equity", ratios.get "debtEquityRatioTTM")]

/-- The "Profitability & Valuation Metrics" table (src/app.py lines
96-103). -/
def extra_data (ratios : Record) : List (String × Option Val) :=
  [("P/B Ratio", ratios.get "priceToBookRatioTTM"),
   ("ROA", ratios.get "returnOnAssetsTTM"),
   ("Gross Margin", ratios.get "grossProfitMarginTTM"),
   ("Operating Margin", ratios.get "operatingProfitMarginTTM"),
   ("Net Margin", ratios.get "netProfitMarginTTM"),
   ("Interest Coverage", ratios.get "interestCoverageTTM")]

/-- Display label and provider field name for every entry of the two
ratio tables, in table order. -/
def fieldAliases : List (String × String) :=
  [("PE Ratio", "priceEarningsRatioTTM"),
   ("PEG Ratio", "priceEarningsToGrowthRatioTTM"),
   ("ROE", "returnOnEquityTTM"),
   ("Current Ratio", "currentRatioTTM"),
   ("Debt/Equity", "debtEquityRatioTTM"),
   ("P/B Ratio", "priceToBookRatioTTM"),
   ("ROA", "returnOnAssetsTTM"),
   ("Gross Margin", "grossProfitMarginTTM"),
   ("Operating Margin", "operatingProfitMarginTTM"),
   ("Net Margin", "netProfitMarginTTM"),
   ("Interest Coverage", "interestCoverageTTM")]

/-- A float64 cell of the YoY table: pandas `pct_change` produces NaN
(first row, or 0/0), a signed infinity (nonzero/0), or a finite value. -/
inductive PCVal where
  | nan
  | inf
  | negInf
  | num (q : ℚ)
deriving DecidableEq, Repr

/-- NaN test — what `dropna` keys on (infinities are NOT NaN). -/
def PCVal.isNaN : PCVal → Bool
  | .nan => true
  | _ => false

/-- One step of `Series.pct_change() * 100`: `cur / prev - 1`, with
float64 division-by-zero semantics (`x/0` is `±inf` for `x ≠ 0`, `0/0`
is NaN), then scaled by 100. -/
def pctChange100 (prev cur : ℚ) : PCVal :=
  if prev = 0 then
    if cur = 0 then .nan
    else if 0 < cur then .inf
    else .negInf
  else .num ((cur / prev - 1) * 100)

/-- One row of the YoY table: `Year` (`date.dt.year`, i.e. the yyyymmdd
ordinal divided by 10000), revenue YoY %, net-income YoY %. -/
structure YoYRow where
  year : Nat
  revYoY : PCVal
  niYoY : PCVal
deriving DecidableEq, Repr

/-- Row-retention test of `.dropna()`: a row survives iff neither metric
cell is NaN (the `Year` column is never NaN). -/
def rowKept (row : YoYRow) : Bool :=
  !(row.revYoY.isNaN) && !(row.niYoY.isNaN)

/-- The YoY rows for consecutive record pairs (row `i` is computed from
records `i-1` and `i`), before the first-row NaN and `dropna`. -/
def pairRows (rs : List IncomeRec) : List YoYRow :=
  (rs.zip rs.tail).map fun pc =>
    ⟨pc.2.date / 10000, pctChange100 pc.1.revenue pc.2.revenue,
      pctChange100 pc.1.netIncome pc.2.netIncome⟩

/-- The full `yoy_df` rows (src/app.py lines 133-136): `pct_change` puts
NaN in the first row (no prior period), the rest are consecutive-pair
percentage changes. -/
def yoyRows (rs : List IncomeRec) : List YoYRow :=
  match rs with
  | [] => []
  | r0 :: _ => ⟨r0.date / 10000, .nan, .nan⟩ :: pairRows rs

/-- `display_df` (src/app.py line 137): select the Year and the two YoY
columns and `.dropna()` (drop any row holding a NaN). -/
def display_df (rs : List IncomeRec) : List YoYRow :=
  (yoyRows rs).filter rowKept

/-- Spec-side reference for claim C2 as frozen: growth for period `i` is
`(value[i] - value[i-1]) / |value[i-1]| * 100` rounded to 2 decimals, and
the "unavailable" marker when the prior value is zero. -/
def round2 (q : ℚ) : ℚ := (round (q * 100) : ℤ) / 100

/-- Spec-side reference for claim C2 as frozen (absolute-value
denominator, rounded, unavailable at zero prior). -/
def claimGrowth (prev cur : ℚ) : PCVal :=
  if prev = 0 then .nan
  else .num (round2 ((cur - prev) / |prev| * 100))

/-- Amended YoY semantics, written from the corrected claim: one row per
consecutive pair of periods (first period omitted); growth is
`(value[i] - value[i-1]) / value[i-1] * 100` with the SIGNED prior value
as denominator; a zero prior with nonzero current yields a signed
infinity (kept in the table, not "unavailable"); a zero prior with zero
current yields NaN and that whole row is dropped; rounding to two
decimals happens only in display formatting, not in the data. -/
def growthAmended (prev cur : ℚ) : PCVal :=
  if prev = 0 then
    if cur = 0 then .nan
    else if 0 < cur then .inf
    else .negInf
  else .num ((cur - prev) / prev * 100)

/-- Amended YoY series, written from the corrected claim (see
`growthAmended`). -/
def yoySeriesAmended (rs : List IncomeRec) : List YoYRow :=
  ((rs.zip rs.tail).map fun pc =>
      ⟨pc.2.date / 10000, growthAmended pc.1.revenue pc.2.revenue,
        growthAmended pc.1.netIncome pc.2.netIncome⟩).filter rowKept

/-- Runtime errors of the page script beyond the fetch helpers. -/
inductive RunErr where
  | fetch (e : FetchErr)
  | typeError
  | zeroDivError
deriving DecidableEq, Repr

/-- Python truthiness of a value obtained by `dict.get`: `None`, `0` and
the empty string are falsy. -/
def truthy : Option Val → Bool
  | none => false
  | some (.num q) => if q = 0 then false else true
  | some (.str s) => if s = "" then false else true

/-- Python `a / b` on values obtained by `dict.get`: `TypeError` unless
both are numbers, `ZeroDivisionError` on a zero denominator. -/
def pyDiv (a b : Option Val) : Except RunErr ℚ :=
  match a, b with
  | some (.num x), some (.num y) =>
    if y = 0 then .error .zeroDivError else .ok (x / y)
  | _, _ => .error .typeError

/-- `dividend_yield` (src/app.py line 146):
`profile.get("lastDiv") / profile.get("price") * 100 if profile.get("price") else None`.
The guard is Python truthiness of the price; when the guard passes the
division runs on whatever `get` returned and can raise `TypeError`. -/
def dividend_yield (profile : Record) : Except RunErr (Option ℚ) :=
  if truthy (profile.get "price") then
    (pyDiv (profile.get "lastDiv") (profile.get "price")).map fun q => some (q * 100)
  else .ok none

/-- Amended dividend-yield semantics, written from the corrected claim:
`None` (no yield shown) when the price is missing, null, zero or the
empty string; a raised `TypeError` when the price is truthy but either
operand is not a number (in particular when `lastDiv` is missing); the
signed percentage `lastDiv / price * 100` whenever both are numbers and
the price is nonzero — including a NEGATIVE price, which is not treated
as unavailable. -/
def dividend_yield_amended (profile : Record) : Except RunErr (Option ℚ) :=
  match profile.get "price" with
  | none => .ok none
  | some (.str s) =>
    if s = "" then .ok none
    else .error .typeError
  | some (.num p) =>
    if p = 0 then .ok none
    else
      match profile.get "lastDiv" with
      | some (.num d) => .ok (some (d / p * 100))
      | _ => .error .typeError

/-- `matched_sector` (src/app.py line 158):
`next((s for s in sector_pe_list if s.get("sector") == sector_name), None)`
— first entry whose `sector` field equals the company's sector label,
compared with Python `==` (case-SENSITIVE; `None == None` is `True`). -/
def matched_sector (sector_pe_list : List Record) (sector_name : Option Val) : Option Record :=
  sector_pe_list.find? fun s => decide (s.get "sector" = sector_name)

/-- Amended sector-matching semantics, written from the corrected claim:
case-sensitive exact equality on the sector label (no case folding, no
fuzzy matching), first match wins on duplicates. -/
def match_sector_pe_amended : List Record → Option Val → Option Record
  | [], _ => none
  | s :: rest, n =>
    if s.get "sector" = n then some s else match_sector_pe_amended rest n

/-- Python `str.lower`, used only to exhibit that two labels differ in
letter case alone. -/
def pyLower (s : String) : String := ⟨s.data.map Char.toLower⟩

/-- Python `str.strip` (drop leading and trailing whitespace). -/
def pyStrip (s : String) : String :=
  ⟨((s.data.dropWhile Char.isWhitespace).reverse.dropWhile Char.isWhitespace).reverse⟩

/-- Python `str.upper`. -/
def pyUpper (s : String) : String := ⟨s.data.map Char.toUpper⟩

/-- The processed ticker (src/app.py line 59):
`st.text_input(...).strip().upper()`. -/
def pyTicker (raw : String) : String := pyUpper (pyStrip raw)

/-- The upstream world one page evaluation talks to: one transport
outcome per endpoint the script calls (src/app.py lines 63-68). -/
structure World where
  profileT : Fetched (List Record)
  ratiosT : Fetched (List Record)
  keyMetricsT : Fetched (List Record)
  incomeAnnualT : Fetched (List IncomeRec)
  incomeQuarterlyT : Fetched (List IncomeRec)
  sectorPET : Fetched (List Record)

/-- The six fetch results once all calls succeeded. -/
structure FetchedData where
  profile : Record
  ratios : Record
  key_metrics : Record
  income_annual : List IncomeRec
  income_quarterly : List IncomeRec
  sector_pe_list : List Record
deriving DecidableEq, Repr

/-- The sequential fetch block under the spinner (src/app.py lines
62-68).  Returns the endpoints actually called (a raising call still
counts as issued) and either the data or the first raised error — a
raised fetch aborts the script, later fetches are not attempted. -/
def runFetches (w : World) : List String × Except FetchErr FetchedData :=
  match fetch_profile w.profileT with
  | .error e => (["profile"], .error e)
  | .ok profile =>
    match fetch_ratios_ttm w.ratiosT with
    | .error e => (["profile", "ratios-ttm"], .error e)
    | .ok ratios =>
      match fetch_key_metrics w.keyMetricsT with
      | .error e => (["profile", "ratios-ttm", "key-metrics-ttm"], .error e)
      | .ok key_metrics =>
        match fetch_income_statement w.incomeAnnualT with
        | .error e =>
          (["profile", "ratios-ttm", "key-metrics-ttm", "income-statement-annual"], .error e)
        | .ok income_annual =>
          match fetch_income_statement w.incomeQuarterlyT with
          | .error e =>
            (["profile", "ratios-ttm", "key-metrics-ttm", "income-statement-annual",
              "income-statement-quarterly"], .error e)
          | .ok income_quarterly =>
            match fetch_sector_pe_snapshot w.sectorPET with
            | .error e =>
              (["profile", "ratios-ttm", "key-metrics-ttm", "income-statement-annual",
                "income-statement-quarterly", "sector-pe-snapshot"], .error e)
            | .ok sector_pe_list =>
              (["profile", "ratios-ttm", "key-metrics-ttm", "income-statement-annual",
                "income-statement-quarterly", "sector-pe-snapshot"],
               .ok ⟨profile, ratios, key_metrics, income_annual, income_quarterly,
                 sector_pe_list⟩)

/-- One rendered element of the page, in source order. -/
inductive PageItem where
  | errorMsg (ticker : String)
  | header (companyName sector industry mktCap : Option Val)
  | keyRatios (rows : List (String × Option Val))
  | extraMetrics (rows : List (String × Option Val))
  | incomeChart (rows : List IncomeRec)
  | noIncomeWarning
  | yoyTable (rows : List YoYRow)
  | earnings (eps fcf : Option Val) (divYield : Option ℚ)
  | sectorPE (companyPE sectorAvgPE : Option Val) (sectorName : Option Val)
  | sectorPEMissing (sectorName : Option Val)
  | caption
deriving DecidableEq, Repr

/-- The page body after the fetches (src/app.py lines 70-170).  When the
profile dict is empty (`if not profile`), the script renders the error
message and `st.stop()`s: nothing after it is rendered.  Otherwise the
sections are rendered in order; the dividend-yield expression can raise
`TypeError`, which aborts the script run. -/
def renderPage (ticker : String) (fd : FetchedData) (intervalAnnual : Bool) :
    Except RunErr (List PageItem) :=
  if fd.profile.isEmpty then .ok [.errorMsg ticker]
  else
    let headerS := PageItem.header (fd.profile.get "companyName") (fd.profile.get "sector")
      (fd.profile.get "industry") (fd.profile.get "mktCap")
    let keyS := PageItem.keyRatios (key_data fd.ratios)
    let extraS := PageItem.extraMetrics (extra_data fd.ratios)
    let selected := if intervalAnnual then fd.income_annual else fd.income_quarterly
    let chartS := if selected.isEmpty then PageItem.noIncomeWarning
      else PageItem.incomeChart selected
    let yoyS : List PageItem :=
      if fd.income_annual.isEmpty then []
      else [PageItem.yoyTable (display_df fd.income_annual)]
    match dividend_yield fd.profile with
    | .error e => .error e
    | .ok dy =>
      let earningsS := PageItem.earnings (fd.key_metrics.get "epsTTM")
        (fd.key_metrics.get "freeCashFlowTTM") dy
      let sectorName := fd.profile.get "sector"
      let sectorS :=
        match matched_sector fd.sector_pe_list sectorName with
        | some s => PageItem.sectorPE (fd.ratios.get "priceEarningsRatioTTM")
            (s.get "pe") sectorName
        | none => PageItem.sectorPEMissing sectorName
      .ok ([headerS, keyS, extraS, chartS] ++ yoyS ++ [earningsS, sectorS, .caption])

/-- One whole script evaluation (src/app.py lines 59-170): process the
ticker input; an empty ticker (`if ticker:`) skips everything — no fetch
is issued and nothing beyond the static input widget is rendered;
otherwise run the fetches (a raised fetch aborts the run) and render the
page. -/
def runApp (raw : String) (w : World) (intervalAnnual : Bool) :
    List String × Except RunErr (List PageItem) :=
  if pyTicker raw = "" then ([], .ok [])
  else
    match runFetches w with
    | (issued, .error e) => (issued, .error (.fetch e))
    | (issued, .ok fd) => (issued, renderPage (pyTicker raw) fd intervalAnnual)

/-- A world where the profile endpoint answers 200 with an empty JSON
array (so `fetch_profile` returns the empty dict) while every other
endpoint answers 200 with nonempty, well-formed data. -/
def emptyProfileWorld : World :=
  ⟨.response 200 (some []),
   .response 200 (some [[("returnOnEquityTTM", some (Val.num 1))]]),
   .response 200 (some [[("epsTTM", some (Val.num 5))]]),
   .response 200 (some [⟨20210101, 100, 10⟩, ⟨20220101, 120, 15⟩]),
   .response 200 (some [⟨20210401, 25, 2⟩]),
   .response 200 (some [[("sector", some (Val.str "Technology")), ("pe", some (Val.num 20))]])⟩

/-- A world where every endpoint would raise a network error if called. -/
def downWorld : World :=
  ⟨.netError, .netError, .netError, .netError, .netError, .netError⟩

/-! ## Theorems -/

/-- On a non-success transport outcome, `fetchFirst` (the shared body of
the profile / TTM-ratios / TTM-key-metrics fetchers) raises. -/
theorem fetchFirst_raises {t : Fetched (List Record)} (h : nonSuccess t = true) :
    isError (fetchFirst t) = true := by
  cases t with
  | netError => rfl
  | response st body =>
    simp only [nonSuccess, Bool.or_eq_true] at h
    cases hr : raiseForStatus st with
    | true => simp [fetchFirst, hr, isError]
    | false =>
      rcases h with h | h
      · rw [hr] at h; cases h
      · cases body with
        | none => simp [fetchFirst, hr, isError]
        | some data => simp at h

/-- On a non-success transport outcome, the sector-P/E fetcher raises. -/
theorem fetch_sector_pe_snapshot_raises {t : Fetched (List Record)}
    (h : nonSuccess t = true) : isError (fetch_sector_pe_snapshot t) = true := by
  cases t with
  | netError => rfl
  | response st body =>
    simp only [nonSuccess, Bool.or_eq_true] at h
    cases hr : raiseForStatus st with
    | true => simp [fetch_sector_pe_snapshot, hr, isError]
    | false =>
      rcases h with h | h
      · rw [hr] at h; cases h
      · cases body with
        | none => simp [fetch_sector_pe_snapshot, hr, isError]
        | some data => simp at h

/-- On a non-success transport outcome, the income-statement fetcher
raises. -/
theorem fetch_income_statement_raises {t : Fetched (List IncomeRec)}
    (h : nonSuccess t = true) : isError (fetch_income_statement t) = true := by
  cases t with
  | netError => rfl
  | response st body =>
    simp only [nonSuccess, Bool.or_eq_true] at h
    cases hr : raiseForStatus st with
    | true => simp [fetch_income_statement, hr, isError]
    | false =>
      rcases h with h | h
      · rw [hr] at h; cases h
      · cases body with
        | none => simp [fetch_income_statement, hr, isError]
        | some data => simp at h

/-- Claim C1, counterexample: the claim says every fetch returns an
explicit no-data result on a non-success transport outcome and never
propagates a transport error.  In fact a 404 response makes
`fetch_profile` raise `HTTPError` (via `raise_for_status`), a network
error propagates as `ConnectionError`, and a malformed body propagates
the JSON decode error — none of these is a no-data return. -/
theorem C1_counterexample :
    fetch_profile (Fetched.response 404 (some [])) = .error (FetchErr.httpError 404)
    ∧ fetch_ratios_ttm Fetched.netError = .error FetchErr.connectionError
    ∧ fetch_income_statement (Fetched.response 200 none) = .error FetchErr.decodeError :=
  ⟨rfl, rfl, rfl⟩

/-- Claim C1, amended: for every resource kind, when the upstream HTTP
call has a non-success outcome (network error, 4xx/5xx status, or
malformed body), the fetch operation RAISES — it propagates the
transport error to its caller and never converts it into an
Unavailable/no-data result.  (Only a successful response whose decoded
body is an empty array yields a no-data value.) -/
theorem C1_fetch_raises (t : Fetched (List Record)) (ti : Fetched (List IncomeRec))
    (h1 : nonSuccess t = true) (h2 : nonSuccess ti = true) :
    isError (fetch_profile t) = true
    ∧ isError (fetch_ratios_ttm t) = true
    ∧ isError (fetch_key_metrics t) = true
    ∧ isError (fetch_sector_pe_snapshot t) = true
    ∧ isError (fetch_income_statement ti) = true :=
  ⟨fetchFirst_raises h1, fetchFirst_raises h1, fetchFirst_raises h1,
   fetch_sector_pe_snapshot_raises h1, fetch_income_statement_raises h2⟩

/-- Claim C1, witness: the amended theorem applied to a 500 response and
a malformed income-statement body. -/
theorem C1_witness :
    isError (fetch_profile (Fetched.response 500 (some []))) = true
    ∧ isError (fetch_ratios_ttm (Fetched.response 500 (some []))) = true
    ∧ isError (fetch_key_metrics (Fetched.response 500 (some []))) = true
    ∧ isError (fetch_sector_pe_snapshot (Fetched.response 500 (some []))) = true
    ∧ isError (fetch_income_statement (Fetched.response 200 (none : Option (List IncomeRec)))) = true :=
  C1_fetch_raises (Fetched.response 500 (some [])) (Fetched.response 200 none) rfl rfl

/-- Each step of `pct_change` agrees with the amended growth formula:
dividing by the signed prior value, `cur / prev - 1` equals
`(cur - prev) / prev`. -/
theorem pctChange100_eq_growthAmended : pctChange100 = growthAmended := by
  funext p c
  simp only [pctChange100, growthAmended]
  split
  · rfl
  · rename_i hp
    congr 1
    field_simp

/-- Claim C2, counterexample: the claim says growth for period `i` is
`(value[i] - value[i-1]) / |value[i-1]| * 100` rounded to two decimals.
On the history `[(2021, revenue -10), (2022, revenue 10)]` that formula
gives `+200.00`, but the code (pandas `pct_change`, SIGNED denominator)
renders `-200` — the sign is wrong whenever the prior value is
negative. -/
theorem C2_counterexample :
    display_df [⟨20210101, -10, 5⟩, ⟨20220101, 10, 5⟩]
        = [⟨2022, PCVal.num (-200), PCVal.num 0⟩]
    ∧ claimGrowth (-10) 10 = PCVal.num 200
    ∧ PCVal.num (-200) ≠ PCVal.num 200 := by
  refine ⟨?_, ?_, ?_⟩
  · simp only [display_df, yoyRows, pairRows, List.tail_cons, List.zip, List.zipWith,
      List.map, pctChange100, rowKept, PCVal.isNaN, List.filter]
    norm_num
  · simp only [claimGrowth, round2]
    norm_num
  · simp only [ne_eq, PCVal.num.injEq]
    norm_num

/-- Claim C2, amended: for every income history the displayed YoY series
has one row per consecutive pair of periods (the first period, which has
no prior baseline, is always dropped), where growth is
`(value[i] - value[i-1]) / value[i-1] * 100` with the SIGNED prior value
as denominator (not its absolute value); a zero prior with nonzero
current yields a signed infinity that stays in the table (not an
unavailable marker); a zero prior with zero current yields NaN and that
entire row is dropped by `dropna` (so the series can be shorter than
N-1); values are not rounded in the data — two-decimal rounding happens
only in the display format string. -/
theorem C2_yoy_series (rs : List IncomeRec) : display_df rs = yoySeriesAmended rs := by
  cases rs with
  | nil => rfl
  | cons r0 rest =>
    simp only [display_df, yoyRows, yoySeriesAmended, pairRows,
      pctChange100_eq_growthAmended, List.filter, rowKept, PCVal.isNaN,
      Bool.not_true, Bool.false_and]

/-- Claim C3, counterexample: the claim says that when the profile lookup
yields no data the other available outputs are still rendered.  In this
world the profile endpoint answers 200 with an empty array while the
income-statement endpoints return real data; the script renders only the
error message and `st.stop()`s — no income chart, no YoY table, nothing
else. -/
theorem C3_counterexample :
    runApp "AAPL" emptyProfileWorld true
      = (["profile", "ratios-ttm", "key-metrics-ttm", "income-statement-annual",
          "income-statement-quarterly", "sector-pe-snapshot"],
         .ok [PageItem.errorMsg "AAPL"]) := rfl

/-- Claim C3, amended: when the profile lookup succeeds but carries no
data (empty dict), the page renders exactly the "no data found" error
message and stops; every other section — including an independently
available income history — is suppressed. -/
theorem C3_profile_stop (ticker : String) (fd : FetchedData) (i : Bool)
    (h : fd.profile = []) :
    renderPage ticker fd i = .ok [PageItem.errorMsg ticker] := by
  simp [renderPage, h]

/-- Claim C3, witness: the amended theorem applied to fetched data with
an empty profile and a nonempty annual income history. -/
theorem C3_witness :
    renderPage "AAPL" ⟨[], [], [], [⟨20210101, 100, 10⟩], [], []⟩ true
      = .ok [PageItem.errorMsg "AAPL"] :=
  C3_profile_stop "AAPL" ⟨[], [], [], [⟨20210101, 100, 10⟩], [], []⟩ true rfl

/-- Claim C4, counterexample: the claim says sector matching is
case-insensitive.  With company sector "Technology" and a table entry
"technology" — two labels that differ only in letter case — the code's
`==` comparison finds no match. -/
theorem C4_counterexample :
    matched_sector [[("sector", some (Val.str "technology")), ("pe", some (Val.num 20))]]
        (some (Val.str "Technology")) = none
    ∧ pyLower "technology" = pyLower "Technology" :=
  ⟨rfl, rfl⟩

/-- Claim C4, amended: sector matching is a case-SENSITIVE exact match
on the sector label: the first entry of the table whose `sector` field
equals the company's sector string exactly (first match wins on
duplicates, no fuzzy matching and no case folding). -/
theorem C4_sector_match (l : List Record) (n : Option Val) :
    matched_sector l n = match_sector_pe_amended l n := by
  induction l with
  | nil => rfl
  | cons s rest ih =>
    by_cases h : Record.get s "sector" = n
    · simp [matched_sector, List.find?_cons, h, match_sector_pe_amended]
    · simp only [matched_sector, List.find?_cons, match_sector_pe_amended] at ih ⊢
      rw [if_neg h]
      simpa [h] using ih

/-- Claim C5, counterexample: the claim says the dividend-yield
computation returns the Unavailable marker (never an exception) when
either input is missing, and Unavailable whenever price ≤ 0.  In fact,
with a present positive price and a missing `lastDiv` the expression
raises `TypeError` (`None / number`), and with a NEGATIVE price it
happily computes a negative yield instead of Unavailable. -/
theorem C5_counterexample :
    dividend_yield [("price", some (Val.num 100))] = .error RunErr.typeError
    ∧ dividend_yield [("lastDiv", some (Val.num 5)), ("price", some (Val.num (-100)))]
        = .ok (some (-5)) := by
  constructor
  · rfl
  · have h1 : Record.get [("lastDiv", some (Val.num 5)), ("price", some (Val.num (-100)))]
        "price" = some (Val.num (-100)) := rfl
    have h2 : Record.get [("lastDiv", some (Val.num 5)), ("price", some (Val.num (-100)))]
        "lastDiv" = some (Val.num 5) := rfl
    simp only [dividend_yield, h1, h2, truthy, pyDiv]
    norm_num [Except.map]

/-- Claim C5, amended: the dividend-yield expression returns `None` (no
value shown) when the price is missing, null, zero or an empty string
(Python falsiness); it RAISES `TypeError` when the price is truthy but
either operand is not a number — in particular when `lastDiv` is missing;
and when both are numbers with a nonzero price it returns the signed
percentage `lastDiv / price * 100`, including for a negative price, which
is not treated as unavailable. -/
theorem C5_dividend_yield (profile : Record) :
    dividend_yield profile = dividend_yield_amended profile := by
  rcases hp : Record.get profile "price" with _ | v
  · simp [dividend_yield, dividend_yield_amended, hp, truthy]
  · rcases v with q | s
    · by_cases h0 : q = 0
      · subst h0
        simp [dividend_yield, dividend_yield_amended, hp, truthy]
      · rcases hd : Record.get profile "lastDiv" with _ | w
        · simp [dividend_yield, dividend_yield_amended, hp, hd, truthy, pyDiv, h0,
            Except.map]
        · rcases w with d | s2
          · simp [dividend_yield, dividend_yield_amended, hp, hd, truthy, pyDiv, h0,
              Except.map]
          · simp [dividend_yield, dividend_yield_amended, hp, hd, truthy, pyDiv, h0,
              Except.map]
    · by_cases hs : s = ""
      · subst hs
        simp [dividend_yield, dividend_yield_amended, hp, truthy]
      · rcases hd : Record.get profile "lastDiv" with _ | w
        · simp [dividend_yield, dividend_yield_amended, hp, hd, truthy, pyDiv, hs,
            Except.map]
        · rcases w with d | s2
          · simp [dividend_yield, dividend_yield_amended, hp, hd, truthy, pyDiv, hs,
              Except.map]
          · simp [dividend_yield, dividend_yield_amended, hp, hd, truthy, pyDiv, hs,
              Except.map]

/-- Claim C6: for every ratios record, each entry of the two metric
tables is exactly the raw `get` of its (single-alias) provider field
name, and whenever that field is absent from the record or present with
a null value the entry is the no-data marker `none` — never a default
numeric zero, and the lookup itself is total (no crash). -/
theorem C6_missing_fields (r : Record) :
    key_data r ++ extra_data r = fieldAliases.map (fun la => (la.1, Record.get r la.2))
    ∧ ∀ k, Record.absentOrNull r k = true → Record.get r k = none := by
  constructor
  · rfl
  · intro k
    induction r with
    | nil => intro _; rfl
    | cons kv rest ih =>
      obtain ⟨k1, v⟩ := kv
      intro h
      by_cases heq : k1 = k
      · simp only [Record.get, Record.absentOrNull, if_pos heq] at h ⊢
        exact Option.isNone_iff_eq_none.mp h
      · simp only [Record.get, Record.absentOrNull, if_neg heq] at h ⊢
        exact ih h

/-- Claim C6, witness: a record carrying only a null ROE field yields the
no-data marker for the P/E field (absent) via the theorem. -/
theorem C6_witness :
    Record.get [("returnOnEquityTTM", (none : Option Val))] "priceEarningsRatioTTM" = none :=
  (C6_missing_fields [("returnOnEquityTTM", none)]).2 "priceEarningsRatioTTM" rfl

/-- Claim C7, counterexample: the claim says income histories are
de-duplicated on date (keeping one record per date) so that dates are
strictly increasing, and that the operation never fails.  Feeding two
records with the same date, the code keeps BOTH (no de-duplication, the
resulting dates are equal rather than strictly increasing); and on an
empty response body the operation raises `KeyError("date")` rather than
succeeding. -/
theorem C7_counterexample :
    fetch_income_statement
        (Fetched.response 200 (some [⟨20200101, 1, 1⟩, ⟨20200101, 2, 2⟩]))
      = .ok [⟨20200101, 1, 1⟩, ⟨20200101, 2, 2⟩]
    ∧ (⟨20200101, 1, 1⟩ : IncomeRec).date = (⟨20200101, 2, 2⟩ : IncomeRec).date
    ∧ fetch_income_statement (Fetched.response 200 (some ([] : List IncomeRec)))
      = .error (FetchErr.keyError "date") :=
  ⟨rfl, rfl, rfl⟩

/-- Claim C7, amended: for every successful, decodable, NONEMPTY
income-statement response the result is the input re-sorted ascending
(non-strictly) by date — a permutation of the provider's records with
duplicates retained, not de-duplicated; an empty response body instead
raises `KeyError("date")`. -/
theorem C7_income_sorted (st : Nat) (rs : List IncomeRec)
    (h1 : st < 400) (h2 : rs ≠ []) :
    fetch_income_statement (.response st (some rs)) = .ok (List.insertionSort dateLE rs)
    ∧ List.Perm (List.insertionSort dateLE rs) rs
    ∧ List.Sorted dateLE (List.insertionSort dateLE rs)
    ∧ fetch_income_statement (.response st (some ([] : List IncomeRec)))
      = .error (FetchErr.keyError "date") := by
  have hrs : raiseForStatus st = false := by
    simp only [raiseForStatus, decide_eq_false_iff_not]
    omega
  refine ⟨?_, List.perm_insertionSort _ _, List.sorted_insertionSort _ _, ?_⟩
  · cases rs with
    | nil => exact absurd rfl h2
    | cons a l => simp [fetch_income_statement, hrs]
  · simp [fetch_income_statement, hrs]

/-- Claim C7, witness: the amended theorem applied to an out-of-order
two-record response. -/
theorem C7_witness :
    fetch_income_statement (.response 200 (some [⟨20220101, 3, 3⟩, ⟨20210101, 4, 4⟩]))
      = .ok (List.insertionSort dateLE [⟨20220101, 3, 3⟩, ⟨20210101, 4, 4⟩])
    ∧ List.Perm (List.insertionSort dateLE [⟨20220101, 3, 3⟩, ⟨20210101, 4, 4⟩])
        [⟨20220101, 3, 3⟩, ⟨20210101, 4, 4⟩]
    ∧ List.Sorted dateLE (List.insertionSort dateLE [⟨20220101, 3, 3⟩, ⟨20210101, 4, 4⟩])
    ∧ fetch_income_statement (.response 200 (some ([] : List IncomeRec)))
      = .error (FetchErr.keyError "date") :=
  C7_income_sorted 200 [⟨20220101, 3, 3⟩, ⟨20210101, 4, 4⟩] (by omega)
    (List.cons_ne_nil _ _)

/-- Claim C8: normalization is deterministic and pure — applying the
table construction to equal raw records yields identical tables.  (In
this embedding the Python code is a pure function of the decoded record:
it reads no mutable state, so determinism is definitional.) -/
theorem C8_normalize_deterministic (r1 r2 : Record) (h : r1 = r2) :
    key_data r1 = key_data r2 ∧ extra_data r1 = extra_data r2 := by
  subst h
  exact ⟨rfl, rfl⟩

/-- Claim C8, witness: the determinism theorem applied to a concrete
record. -/
theorem C8_witness :
    key_data [("returnOnEquityTTM", some (Val.num 1))]
        = key_data [("returnOnEquityTTM", some (Val.num 1))]
    ∧ extra_data [("returnOnEquityTTM", some (Val.num 1))]
        = extra_data [("returnOnEquityTTM", some (Val.num 1))] :=
  C8_normalize_deterministic [("returnOnEquityTTM", some (Val.num 1))]
    [("returnOnEquityTTM", some (Val.num 1))] rfl

/-- Claim C9, counterexample: the claim says an empty ticker is rejected
with a user-visible prompt.  On whitespace-only input the script indeed
issues no fetch, but it renders NOTHING — there is no prompt, no message,
no output at all beyond the static input widget. -/
theorem C9_counterexample : runApp "   " downWorld true = ([], .ok []) := rfl

/-- Claim C9, amended: for an empty (or whitespace-only, after trimming)
ticker input, the script skips the whole body: no upstream request of any
resource kind is attempted and nothing is rendered — silence, not a
user-visible prompt. -/
theorem C9_empty_ticker (raw : String) (w : World) (i : Bool)
    (h : pyStrip raw = "") :
    runApp raw w i = ([], .ok []) := by
  have ht : pyTicker raw = "" := by
    rw [pyTicker, h]
    rfl
  rw [runApp, if_pos ht]

/-- Claim C9, witness: the amended theorem applied to a whitespace-only
input against a world that would fail every fetch (none is issued). -/
theorem C9_witness : runApp "  " downWorld false = ([], .ok []) :=
  C9_empty_ticker "  " downWorld false rfl

/-- Claim C10 (implicit): when the income-statement endpoint answers
success with an empty JSON array (e.g. an unknown ticker), building the
result indexes the `date` column of an empty DataFrame and raises
`KeyError`, so the whole script run fails — nothing is rendered — instead
of returning an empty income history and letting the other sections
render. -/
theorem C10_empty_income (raw : String) (i : Bool) (s1 s2 s3 : Nat)
    (ps rb kb : List Record) (tq : Fetched (List IncomeRec)) (tspe : Fetched (List Record))
    (ht : pyTicker raw = "" → False) (h1 : s1 < 400) (h2 : s2 < 400) (h3 : s3 < 400) :
    (runApp raw ⟨.response s1 (some ps), .response s2 (some rb), .response s3 (some kb),
        .response 200 (some ([] : List IncomeRec)), tq, tspe⟩ i).2
      = .error (.fetch (FetchErr.keyError "date")) := by
  have e1 : raiseForStatus s1 = false := by
    simp only [raiseForStatus, decide_eq_false_iff_not]
    omega
  have e2 : raiseForStatus s2 = false := by
    simp only [raiseForStatus, decide_eq_false_iff_not]
    omega
  have e3 : raiseForStatus s3 = false := by
    simp only [raiseForStatus, decide_eq_false_iff_not]
    omega
  have e4 : raiseForStatus 200 = false := rfl
  rw [runApp, if_neg ht]
  simp [runFetches, fetch_profile, fetch_ratios_ttm, fetch_key_metrics, fetchFirst,
    fetch_income_statement, e1, e2, e3, e4]

/-- Claim C10, witness: a concrete run with a valid ticker, successful
profile/ratios/key-metrics responses and an empty income-statement body
fails with `KeyError("date")`. -/
theorem C10_witness :
    (runApp "AAPL" ⟨.response 200 (some [[("companyName", some (Val.str "Apple"))]]),
        .response 200 (some [[("returnOnEquityTTM", some (Val.num 1))]]),
        .response 200 (some [[("epsTTM", some (Val.num 5))]]),
        .response 200 (some ([] : List IncomeRec)), .netError, .netError⟩ true).2
      = .error (.fetch (FetchErr.keyError "date")) :=
  C10_empty_income "AAPL" true 200 200 200 [[("companyName", some (Val.str "Apple"))]]
    [[("returnOnEquityTTM", some (Val.num 1))]] [[("epsTTM", some (Val.num 5))]]
    .netError .netError (by decide) (by omega) (by omega) (by omega)

end Dashboard
